import Mathlib

/-!
Verification of the BDI deliberation engine of the agent-simulation
repository (backend/core/bdi plus backend/agent.py, backend/simulator.py,
backend/communication.py).  All numeric values are modelled over the
rationals, every Python float literal is carried over exactly
(0.15 becomes 15/100 and so on).  Dictionaries keyed by strings are
modelled either as total functions with a default (mirroring
dict.get(k, default)) or as association lists.  The belief dictionary key
string f-type:subject:key is modelled as the triple itself, which is
injective whenever subjects and keys avoid the colon character, as they do
throughout the code base.
-/

/-- Desire sources used by the code (string literals in desires.py,
deliberation.py and intentions.py). -/
inductive Source where
  | worldEvent
  | userMessage
  | incomingMessage
  | deepWorkReject
  | wrapUp
  | llmDynamic
  | llmFallback
  | idleDrive
  | personalityExtraversion
  | personalityAgreeableness
  | emotionHappiness
  | emotionSadness
  | personality
deriving DecidableEq, Repr

/-- MotivationType enum from desires.py. -/
inductive MotivationType where
  | survival
  | safety
  | social
  | esteem
  | achievement
  | curiosity
  | worldEvent
deriving DecidableEq, Repr

/-- DesireStatus enum from desires.py. -/
inductive DesireStatus where
  | active
  | pursued
  | achieved
  | abandoned
  | impossible
deriving DecidableEq, Repr

/-- Desire dataclass from desires.py; ids are natural numbers standing for
the uuid strings, the deadline and the creation instant are rational
timestamps, and the two context entries the verified claims read
(target_agent, bypass_battery) are lifted to fields. -/
structure Desire where
  id : Nat
  description : String
  priority : ℚ
  urgency : ℚ
  personalityAlignment : ℚ
  status : DesireStatus
  motivationType : MotivationType
  source : Source
  preconditions : List String
  deadline : Option ℚ
  contextTargetAgent : Option String
  contextBypassBattery : Bool
deriving DecidableEq, Repr

/-- Desire.calculate_utility: priority times urgency times
personality_alignment. -/
def calculateUtility (d : Desire) : ℚ :=
  d.priority * d.urgency * d.personalityAlignment

/-- Desire.is_expired at instant now: only a desire with a deadline in the
strict past is expired. -/
def isExpired (d : Desire) (now : ℚ) : Bool :=
  match d.deadline with
  | none => false
  | some t => decide (t < now)

/-- Desire.is_achievable: every precondition must be satisfied by the
belief query function. -/
def isAchievable (d : Desire) (query : String → Bool) : Bool :=
  d.preconditions.all query

/-- IntentionStatus enum from intentions.py. -/
inductive IntentionStatus where
  | active
  | suspended
  | completed
  | failed
  | abandoned
deriving DecidableEq, Repr

/-- ActionType enum from plans.py. -/
inductive ActionType where
  | move
  | communicate
  | wait
  | search
  | acquire
  | use
  | observe
  | think
  | express
  | help
  | request
  | give
  | initiateConversation
  | sendMessage
  | waitForResponse
  | respondToMessage
  | endConversation
deriving DecidableEq, Repr

/-- Value of the on_timeout parameter of a WAIT_FOR_RESPONSE step. -/
inductive OnTimeout where
  | toEnd
  | toContinue
deriving DecidableEq, Repr

/-- PlanStep dataclass from plans.py, with the parameter-dictionary entries
the verified claims read lifted to fields. -/
structure PlanStep where
  actionType : ActionType
  target : Option String
  requiresResponse : Bool
  expectedFrom : Option String
  onTimeout : OnTimeout
  maxTicks : Option Nat
  executed : Bool
  success : Bool
  timedOut : Bool
deriving DecidableEq, Repr

/-- Plan dataclass from plans.py (only the step list matters for the
verified claims). -/
structure Plan where
  steps : List PlanStep
deriving DecidableEq, Repr

/-- Marks one step the way Plan.skip_to_end_conversation does. -/
def markTimedOut (s : PlanStep) : PlanStep :=
  { s with executed := true, success := false, timedOut := true }

/-- Plan.skip_to_end_conversation: walk from current_idx; if an
END_CONVERSATION step exists at index i, mark every step in
the interval from current_idx up to i exclusive as executed, failed and
timed out and return i; otherwise mark every remaining step that way and
return the plan length. -/
def skipToEndConversation (p : Plan) (currentIdx : Nat) : Plan × Nat :=
  match (p.steps.drop currentIdx).findIdx?
      (fun s => s.actionType == ActionType.endConversation) with
  | some k =>
    (⟨p.steps.mapIdx (fun j s =>
        if currentIdx ≤ j ∧ j < currentIdx + k then markTimedOut s else s)⟩,
     currentIdx + k)
  | none =>
    (⟨p.steps.mapIdx (fun j s =>
        if currentIdx ≤ j then markTimedOut s else s)⟩,
     p.steps.length)

/-- Intention dataclass from intentions.py (fields used by the verified
claims). -/
structure Intention where
  id : Nat
  desireId : Nat
  desireDescription : String
  status : IntentionStatus
  priority : ℚ
  currentStep : Nat
  stepsCompleted : Nat
  stepsFailed : Nat
  retryCount : Nat
  interruptible : Bool
  plan : Option Plan
deriving DecidableEq, Repr

/-- SOCIAL_SOURCES set inside create_intention_from_desire in
intentions.py.  Note that it does not contain world_event. -/
def codeSocialSources : List Source :=
  [.incomingMessage, .userMessage, .wrapUp, .deepWorkReject,
   .personalityExtraversion, .personalityAgreeableness,
   .emotionHappiness, .emotionSadness]

/-- Python truthiness of context.get with a string value: present and
non-empty. -/
def hasTargetAgent (d : Desire) : Bool :=
  match d.contextTargetAgent with
  | none => false
  | some t => decide (t ≠ "")

/-- create_intention_from_desire from intentions.py.  The interruptible
flag is cleared when the source is one of the SOCIAL_SOURCES, or the
motivation type is SOCIAL or WORLD_EVENT (is_social_type), or the desire
is an llm_dynamic social desire with a target (is_llm_social, which is
subsumed by is_social_type). -/
def createIntentionFromDesire (d : Desire) (p : Plan) (newId : Nat) : Intention :=
  let isSocialSource : Bool := decide (d.source ∈ codeSocialSources)
  let isSocialType : Bool :=
    decide (d.motivationType = .social ∨ d.motivationType = .worldEvent)
  let isLlmSocial : Bool :=
    decide (d.source = .llmDynamic) && isSocialType && hasTargetAgent d
  { id := newId
    desireId := d.id
    desireDescription := d.description
    status := .active
    priority := d.priority
    currentStep := 0
    stepsCompleted := 0
    stepsFailed := 0
    retryCount := 0
    interruptible := !(isSocialSource || isSocialType || isLlmSocial)
    plan := some p }

/-- Non-interruptibility condition exactly as the specification words it:
source in the five listed sources, or motivation SOCIAL or WORLD_EVENT
with a resolved target_agent in the context. -/
def specNonInterruptible (d : Desire) : Bool :=
  decide (d.source ∈ ([.incomingMessage, .userMessage, .wrapUp,
      .deepWorkReject, .worldEvent] : List Source))
  || (decide (d.motivationType = .social ∨ d.motivationType = .worldEvent)
      && hasTargetAgent d)

/-- A concrete llm_dynamic SOCIAL desire without a resolved target. -/
def untargetedSocialDesire : Desire :=
  { id := 1
    description := "chat"
    priority := 13/20
    urgency := 7/10
    personalityAlignment := 9/10
    status := .active
    motivationType := .social
    source := .llmDynamic
    preconditions := []
    deadline := none
    contextTargetAgent := none
    contextBypassBattery := false }

/-- A trivial one-step plan used to instantiate intention creation. -/
def oneThinkPlan : Plan :=
  ⟨[{ actionType := .think, target := none, requiresResponse := false,
      expectedFrom := none, onTimeout := .toEnd, maxTicks := none,
      executed := false, success := false, timedOut := false }]⟩

/-- C4 counterexample: for an llm_dynamic SOCIAL desire without a resolved
target, the code creates a non-interruptible intention although the
claimed characterization says the intention is interruptible. -/
theorem c4_counterexample :
    (createIntentionFromDesire untargetedSocialDesire oneThinkPlan 0).interruptible = false
    ∧ specNonInterruptible untargetedSocialDesire = false := by
  constructor <;> rfl

/-- C4 amended: the interruptible flag of a created intention is false
exactly when the desire source is in the SOCIAL_SOURCES set of
intentions.py (incoming_message, user_message, wrap_up, deep_work_reject,
personality_extraversion, personality_agreeableness, emotion_happiness,
emotion_sadness) or the motivation type is SOCIAL or WORLD_EVENT,
regardless of whether a target is resolved. -/
theorem c4_amended (d : Desire) (p : Plan) (n : Nat) :
    (createIntentionFromDesire d p n).interruptible = false
    ↔ (d.source ∈ codeSocialSources
       ∨ d.motivationType = .social ∨ d.motivationType = .worldEvent) := by
  simp only [createIntentionFromDesire]
  simp only [Bool.not_eq_false', Bool.or_eq_true, Bool.and_eq_true,
    decide_eq_true_eq]
  tauto

/-- Sort key of _select_desire_by_tier in deliberation.py: the pair
(priority, calculate_utility()) compared the way Python compares tuples,
which is the lexicographic order. -/
def selKey (d : Desire) : Lex (ℚ × ℚ) :=
  toLex (d.priority, calculateUtility d)

/-- Head of the stable descending sort of candidates by selKey: the fold
keeps the current best and replaces it only on a strictly larger key, so
it returns the first element attaining the maximal key, exactly the
element candidates[0] after list.sort(key=..., reverse=True). -/
def pickBest : Desire → List Desire → Desire
  | best, [] => best
  | best, d :: rest => pickBest (if selKey best < selKey d then d else best) rest

/-- Candidate filter of _select_desire_by_tier: status ACTIVE, id not
bound by an intention in status ACTIVE, SUSPENDED or COMPLETED, not
expired, and achievable against the belief query. -/
def selectionCandidates (desires : List Desire) (intentions : List Intention)
    (now : ℚ) (query : String → Bool) : List Desire :=
  let pursuedIds := intentions.filterMap (fun i =>
    if i.status = .active ∨ i.status = .suspended ∨ i.status = .completed
    then some i.desireId else none)
  desires.filter (fun d =>
    d.status = .active ∧ d.id ∉ pursuedIds
    ∧ isExpired d now = false ∧ isAchievable d query = true)

/-- DeliberationCycle._select_desire_by_tier: filter the candidates, sort
descending by (priority, utility) and return the head, or None when the
candidate list is empty. -/
def selectDesireByTier (desires : List Desire) (intentions : List Intention)
    (now : ℚ) (query : String → Bool) : Option Desire :=
  match selectionCandidates desires intentions now query with
  | [] => none
  | c :: cs => some (pickBest c cs)

theorem pickBest_spec (l : List Desire) (b : Desire) :
    (pickBest b l = b ∨ pickBest b l ∈ l)
    ∧ selKey b ≤ selKey (pickBest b l)
    ∧ ∀ c ∈ l, selKey c ≤ selKey (pickBest b l) := by
  induction l generalizing b with
  | nil => exact ⟨Or.inl rfl, le_refl _, by intro c hc; cases hc⟩
  | cons d rest ih =>
    simp only [pickBest]
    by_cases h : selKey b < selKey d
    · simp only [if_pos h]
      obtain ⟨hmem, hle, hall⟩ := ih d
      refine ⟨?_, le_trans (le_of_lt h) hle, ?_⟩
      · rcases hmem with h1 | h1
        · exact Or.inr (by simp [h1])
        · exact Or.inr (List.mem_cons_of_mem _ h1)
      · intro c hc
        rcases List.mem_cons.mp hc with rfl | hc
        · exact hle
        · exact hall c hc
    · simp only [if_neg h]
      obtain ⟨hmem, hle, hall⟩ := ih b
      refine ⟨?_, hle, ?_⟩
      · rcases hmem with h1 | h1
        · exact Or.inl h1
        · exact Or.inr (List.mem_cons_of_mem _ h1)
      · intro c hc
        rcases List.mem_cons.mp hc with rfl | hc
        · exact le_trans (le_of_not_lt h) hle
        · exact hall c hc

/-- Generator-assigned priority: the priority constant each desire source
receives in desires.py and deliberation.py (PRIORITY_WORLD_EVENT 1.00,
PRIORITY_USER_MESSAGE 1.00, PRIORITY_INCOMING 0.90, deep_work_reject 0.6,
wrap_up 0.99, PRIORITY_LLM_SOCIAL 0.65 for SOCIAL llm_dynamic desires,
PRIORITY_LLM_NONSOCIAL 0.40 otherwise and for llm_fallback, PRIORITY_IDLE
0.10). -/
def generatorPriority (d : Desire) : ℚ :=
  match d.source with
  | .worldEvent => 1
  | .userMessage => 1
  | .incomingMessage => 9/10
  | .deepWorkReject => 3/5
  | .wrapUp => 99/100
  | .llmDynamic => if d.motivationType = .social then 13/20 else 2/5
  | _ => if d.source = .llmFallback then 2/5 else 1/10

/-- Sources the current desire generator can emit (desires.py generation
pipeline plus the wrap_up desires built in deliberation.py). -/
def generatorSources : List Source :=
  [.worldEvent, .userMessage, .incomingMessage, .deepWorkReject, .wrapUp,
   .llmDynamic, .llmFallback, .idleDrive]

/-- A desire carries the priority that the generator assigns to its
source. -/
def generatorConsistent (d : Desire) : Prop :=
  d.priority = generatorPriority d ∧ d.source ∈ generatorSources

theorem generatorPriority_le_one (d : Desire) :
    generatorPriority d ≤ 1
    ∧ (generatorPriority d = 1
       → d.source = Source.worldEvent ∨ d.source = Source.userMessage) := by
  unfold generatorPriority
  cases hs : d.source
  case worldEvent => exact ⟨le_refl 1, fun _ => Or.inl rfl⟩
  case userMessage => exact ⟨le_refl 1, fun _ => Or.inr rfl⟩
  all_goals
    constructor
    · split_ifs <;> norm_num
    · intro h
      split_ifs at h <;> norm_num at h

/-- C1: whenever _select_desire_by_tier binds a desire, that desire is a
member of the candidate set (ACTIVE, unbound, unexpired, achievable) and
is maximal in the candidate set for the order by descending priority and
then descending utility; moreover, when every candidate carries its
generator-assigned priority and some candidate has source world_event or
user_message, the selected desire has source world_event or user_message,
which dominates incoming_message, llm_dynamic and idle_drive desires. -/
theorem c1_tier_selection (desires : List Desire) (intentions : List Intention)
    (now : ℚ) (query : String → Bool) (d : Desire)
    (h : selectDesireByTier desires intentions now query = some d) :
    d ∈ selectionCandidates desires intentions now query
    ∧ (∀ c ∈ selectionCandidates desires intentions now query,
        selKey c ≤ selKey d)
    ∧ ((∀ c ∈ selectionCandidates desires intentions now query,
          generatorConsistent c)
        → (∃ c ∈ selectionCandidates desires intentions now query,
            c.source = Source.worldEvent ∨ c.source = Source.userMessage)
        → (d.source = Source.worldEvent ∨ d.source = Source.userMessage)) := by
  unfold selectDesireByTier at h
  cases hc : selectionCandidates desires intentions now query with
  | nil => rw [hc] at h; exact absurd h (by simp)
  | cons c cs =>
    rw [hc] at h
    have hd : d = pickBest c cs := by
      have := Option.some.inj h
      exact this.symm
    obtain ⟨hmem, hle, hall⟩ := pickBest_spec cs c
    have hdmem : d ∈ c :: cs := by
      rcases hmem with h1 | h1
      · rw [hd, h1]; exact List.mem_cons_self c cs
      · rw [hd]; exact List.mem_cons_of_mem _ h1
    have hmax : ∀ x ∈ c :: cs, selKey x ≤ selKey d := by
      intro x hx
      rcases List.mem_cons.mp hx with rfl | hx
      · rw [hd]; exact hle
      · rw [hd]; exact hall x hx
    refine ⟨hc ▸ hdmem, fun x hx => hmax x (hc ▸ hx), ?_⟩
    intro hcons ⟨t, htmem, htsrc⟩
    have htc : generatorConsistent t := hcons t htmem
    have hdc : generatorConsistent d := hcons d (hc ▸ hdmem)
    have htp : t.priority = 1 := by
      rcases htsrc with h5 | h5 <;>
        simp [htc.1, generatorPriority, h5]
    have hkey : selKey t ≤ selKey d := hmax t htmem
    have hp1 : (1:ℚ) ≤ d.priority := by
      rcases (Prod.Lex.le_iff _ _).mp hkey with h6 | h6
      · have : t.priority < d.priority := h6
        rw [htp] at this
        exact le_of_lt this
      · have : t.priority = d.priority := h6.1
        rw [htp] at this
        exact le_of_eq this
    obtain ⟨hub, heq⟩ := generatorPriority_le_one d
    have : d.priority = 1 := le_antisymm (hdc.1 ▸ hub) hp1
    exact heq (by rw [← hdc.1]; exact this)

/-- Concrete incoming_message desire for the selection witness. -/
def wDesireIncoming : Desire :=
  { id := 10
    description := "reply to b"
    priority := 9/10
    urgency := 9/10
    personalityAlignment := 7/10
    status := .active
    motivationType := .social
    source := .incomingMessage
    preconditions := []
    deadline := none
    contextTargetAgent := some "b"
    contextBypassBattery := false }

/-- Concrete world_event desire for the selection witness. -/
def wDesireEvent : Desire :=
  { id := 11
    description := "react to the alarm"
    priority := 1
    urgency := 1
    personalityAlignment := 1
    status := .active
    motivationType := .worldEvent
    source := .worldEvent
    preconditions := []
    deadline := none
    contextTargetAgent := none
    contextBypassBattery := false }

theorem c1_tier_selection_witness :
    wDesireEvent ∈ selectionCandidates [wDesireIncoming, wDesireEvent] [] 0 (fun _ => true)
    ∧ (wDesireEvent.source = Source.worldEvent
       ∨ wDesireEvent.source = Source.userMessage) := by
  have hcand : selectionCandidates [wDesireIncoming, wDesireEvent] [] 0 (fun _ => true)
      = [wDesireIncoming, wDesireEvent] := by
    simp [selectionCandidates, isExpired, isAchievable, wDesireIncoming, wDesireEvent]
  have hlt : selKey wDesireIncoming < selKey wDesireEvent := by
    rw [selKey, selKey, Prod.Lex.lt_iff]
    left
    show wDesireIncoming.priority < wDesireEvent.priority
    rw [wDesireIncoming, wDesireEvent]
    norm_num
  have hsel : selectDesireByTier [wDesireIncoming, wDesireEvent] [] 0 (fun _ => true)
      = some wDesireEvent := by
    rw [selectDesireByTier, hcand]
    simp [pickBest, if_pos hlt]
  obtain ⟨h1, _, h3⟩ := c1_tier_selection _ _ _ _ _ hsel
  refine ⟨h1, h3 ?_ ⟨wDesireEvent, h1, Or.inl rfl⟩⟩
  intro c hc
  rw [hcand] at hc
  rcases List.mem_cons.mp hc with rfl | hc
  · exact ⟨rfl, by simp [generatorSources, wDesireIncoming]⟩
  · rcases List.mem_cons.mp hc with rfl | hc
    · exact ⟨rfl, by simp [generatorSources, wDesireEvent]⟩
    · cases hc

/-- Perception types distinguished by run_cycle and generate_desires. -/
inductive PerceptionType where
  | communication
  | worldEvent
  | observation
  | otherType
deriving DecidableEq, Repr

/-- MessageType enum from communication.py. -/
inductive MessageType where
  | greeting
  | question
  | answer
  | statement
  | farewell
  | ack
deriving DecidableEq, Repr

/-- Perception dictionary (type, subject and the data entries the
verified claims read). -/
structure Perception where
  ptype : PerceptionType
  subject : String
  msgType : Option MessageType
deriving DecidableEq, Repr

/-- Per-partner turn counter and force-quit flag state of
DeliberationCycle.  The counter dictionary is modelled as the total
function realised by dict.get(partner, 0); the force-quit set as its
membership predicate. -/
structure TurnState where
  counts : String → Nat
  forceQuit : String → Bool

/-- HARD_LIMIT_TURNS constant of deliberation.py. -/
def hardLimitTurns : Nat := 10

/-- One iteration of the turn-counting loop of run_cycle (phase 2b): a
communication perception from a non-empty subject other than the agent
increments the per-partner count; when the count reaches the hard limit
and the partner is not flagged yet, the partner joins the force-quit
set. -/
def processTurnPerception (agentId : String) (st : TurnState) (p : Perception) :
    TurnState :=
  if p.ptype = PerceptionType.communication ∧ p.subject ≠ "" ∧ p.subject ≠ agentId then
    if hardLimitTurns ≤ st.counts p.subject + 1 ∧ st.forceQuit p.subject = false then
      { counts := fun s => if s = p.subject then st.counts p.subject + 1 else st.counts s
        forceQuit := fun s => if s = p.subject then true else st.forceQuit s }
    else
      { counts := fun s => if s = p.subject then st.counts p.subject + 1 else st.counts s
        forceQuit := st.forceQuit }
  else st

/-- The whole phase-2b loop over the tick perceptions. -/
def processTurnCounting (agentId : String) (ps : List Perception)
    (st : TurnState) : TurnState :=
  ps.foldl (processTurnPerception agentId) st

theorem processTurnPerception_match (agentId : String) (st : TurnState)
    (p : Perception) (hp : p.ptype = .communication)
    (hne : p.subject ≠ "") (hna : p.subject ≠ agentId) :
    ((processTurnPerception agentId st p).counts p.subject
      = st.counts p.subject + 1)
    ∧ (hardLimitTurns ≤ st.counts p.subject + 1
        → (processTurnPerception agentId st p).forceQuit p.subject = true)
    ∧ (st.forceQuit p.subject = true
        → (processTurnPerception agentId st p).forceQuit p.subject = true) := by
  unfold processTurnPerception
  rw [if_pos ⟨hp, hne, hna⟩]
  split_ifs with h
  · exact ⟨by simp, fun _ => by simp, fun _ => by simp⟩
  · refine ⟨by simp, ?_, fun hf => hf⟩
    intro hc
    by_contra hf
    exact h ⟨hc, Bool.not_eq_true _ ▸ (Bool.eq_false_iff.mpr
      (fun ht => hf ht))⟩

theorem processTurnCounting_run (agentId partner : String)
    (hne : partner ≠ "") (hna : partner ≠ agentId) :
    ∀ (ps : List Perception) (st : TurnState),
      (∀ q ∈ ps, q.ptype = .communication ∧ q.subject = partner) →
      ((processTurnCounting agentId ps st).counts partner
        = st.counts partner + ps.length)
      ∧ ((hardLimitTurns ≤ st.counts partner → st.forceQuit partner = true)
         → hardLimitTurns ≤ (processTurnCounting agentId ps st).counts partner
         → (processTurnCounting agentId ps st).forceQuit partner = true) := by
  intro ps
  induction ps with
  | nil =>
    intro st _
    exact ⟨by simp [processTurnCounting], fun hinv hc => hinv hc⟩
  | cons q qs ih =>
    intro st hall
    obtain ⟨hq1, hq2⟩ := hall q (List.mem_cons_self q qs)
    have hqs : ∀ r ∈ qs, r.ptype = .communication ∧ r.subject = partner :=
      fun r hr => hall r (List.mem_cons_of_mem q hr)
    obtain ⟨hstep1, hstep2, hstep3⟩ :=
      processTurnPerception_match agentId st q hq1 (hq2 ▸ hne) (hq2 ▸ hna)
    rw [hq2] at hstep1 hstep2 hstep3
    have hfold : processTurnCounting agentId (q :: qs) st
        = processTurnCounting agentId qs (processTurnPerception agentId st q) := rfl
    obtain ⟨ih1, ih2⟩ := ih (processTurnPerception agentId st q) hqs
    constructor
    · rw [hfold, ih1, hstep1, List.length_cons]
      omega
    · intro hinv
      rw [hfold]
      refine ih2 ?_
      intro hc
      by_cases hlim : hardLimitTurns ≤ st.counts partner + 1
      · exact hstep2 hlim
      · rw [hstep1] at hc
        exact absurd hc hlim

/-- C2: a communication perception from another agent increments that
partner counter by exactly one; when the incremented counter reaches the
hard limit of 10 and the partner is not flagged yet, the partner joins the
force-quit set; and any run of at least 10 communication perceptions from
the same partner starting from a fresh counter leaves the partner
force-quit-flagged. -/
theorem c2_hard_turn_limit (agentId partner : String) (st : TurnState)
    (p : Perception) (hp : p.ptype = .communication) (hs : p.subject = partner)
    (hne : partner ≠ "") (hna : partner ≠ agentId) :
    ((processTurnPerception agentId st p).counts partner
      = st.counts partner + 1)
    ∧ (hardLimitTurns ≤ st.counts partner + 1
        → (processTurnPerception agentId st p).forceQuit partner = true)
    ∧ (∀ ps : List Perception,
        (∀ q ∈ ps, q.ptype = .communication ∧ q.subject = partner) →
        st.counts partner = 0 →
        hardLimitTurns ≤ ps.length →
        (processTurnCounting agentId ps st).forceQuit partner = true) := by
  subst hs
  obtain ⟨h1, h2, _⟩ := processTurnPerception_match agentId st p hp hne hna
  refine ⟨h1, h2, ?_⟩
  intro ps hall h0 hlen
  obtain ⟨r1, r2⟩ := processTurnCounting_run agentId p.subject hne hna ps st hall
  refine r2 ?_ ?_
  · intro hc
    rw [h0] at hc
    exact absurd hc (by norm_num [hardLimitTurns])
  · rw [r1, h0]
    simpa using hlen

/-- Fresh turn state: all counters zero, no partner flagged. -/
def wTurnState : TurnState := ⟨fun _ => 0, fun _ => false⟩

/-- A communication perception from agent b. -/
def wCommPerception : Perception := ⟨.communication, "b", some .statement⟩

theorem c2_hard_turn_limit_witness :
    (processTurnCounting "a" (List.replicate 10 wCommPerception)
      wTurnState).forceQuit "b" = true := by
  obtain ⟨_, _, h3⟩ := c2_hard_turn_limit "a" "b" wTurnState wCommPerception
    rfl rfl (by decide) (by decide)
  exact h3 _ (fun q hq => by rw [List.eq_of_mem_replicate hq]; exact ⟨rfl, rfl⟩)
    rfl (by simp [hardLimitTurns])

/-- Base message cost of Agent._drain_social_battery:
cost = (1.1 - extraversion) * 0.15. -/
def drainCostBase (e : ℚ) : ℚ := (11/10 - e) * (15/100)

/-- Introvert and extrovert multipliers of _drain_social_battery
(if extraversion < 0.4 multiply by 1.5, elif extraversion > 0.6 multiply
by 0.7). -/
def drainCostPersonality (e : ℚ) : ℚ :=
  if e < 2/5 then drainCostBase e * (3/2)
  else if 3/5 < e then drainCostBase e * (7/10)
  else drainCostBase e

/-- Neurotic multiplier of _drain_social_battery (if neuroticism > 0.6
multiply by 1.2). -/
def drainCost (e n : ℚ) : ℚ :=
  if 3/5 < n then drainCostPersonality e * (6/5) else drainCostPersonality e

/-- Agent._drain_social_battery: subtract the cost and clamp below at
zero. -/
def drainSocialBattery (battery e n : ℚ) : ℚ :=
  max 0 (battery - drainCost e n)

/-- Agent._restore_social_battery with the default amount 0.05, the
extrovert multiplier 1.2, and the clamp above at one. -/
def restoreSocialBattery (battery e : ℚ) : ℚ :=
  min 1 (battery + (if 3/5 < e then (5/100) * (6/5) else 5/100))

/-- The bypass_battery lookup inside Agent.confirm_action_execution: find
the intention by id, then the first desire with that intention desire_id,
and read bypass_battery from its context (default false). -/
def lookupBypassBattery (intentions : List Intention) (desires : List Desire)
    (intentionId : Nat) : Bool :=
  match intentions.find? (fun i => i.id == intentionId) with
  | none => false
  | some i =>
    match desires.find? (fun d => d.id == i.desireId) with
    | none => false
    | some d => d.contextBypassBattery

/-- Battery part of Agent.confirm_action_execution: drain happens exactly
for SEND_MESSAGE and RESPOND_TO_MESSAGE steps without bypass_battery. -/
def confirmBatteryEffect (a : ActionType) (bypass : Bool)
    (battery e n : ℚ) : ℚ :=
  if (a = .sendMessage ∨ a = .respondToMessage) ∧ bypass = false
  then drainSocialBattery battery e n
  else battery

/-- Cost formula in the product form the specification states. -/
def specDrainCost (e n : ℚ) : ℚ :=
  (11/10 - e) * (15/100)
  * (if e < 2/5 then 3/2 else 1)
  * (if 3/5 < e then 7/10 else 1)
  * (if 3/5 < n then 6/5 else 1)

theorem drainCost_eq_spec (e n : ℚ) : drainCost e n = specDrainCost e n := by
  unfold drainCost drainCostPersonality drainCostBase specDrainCost
  split_ifs <;> first | ring1 | linarith

theorem drainCost_nonneg (e n : ℚ) (he : e ≤ 1) : 0 ≤ drainCost e n := by
  have hb : 0 ≤ drainCostBase e := by
    unfold drainCostBase
    nlinarith
  unfold drainCost drainCostPersonality
  split_ifs <;> nlinarith

/-- C3: the battery effect of a confirmed step equals the claimed
formula: for SEND_MESSAGE and RESPOND_TO_MESSAGE without bypass_battery
the battery decreases by (1.1 - extraversion) * 0.15 multiplied by 1.5
for introverts, 0.7 for extroverts and 1.2 for neurotics, clamped below
at zero (and inside the unit interval when the inputs are); with
bypass_battery the battery is unchanged. -/
theorem c3_battery_drain (e n battery : ℚ) (a : ActionType)
    (intentions : List Intention) (desires : List Desire) (iid : Nat) :
    (lookupBypassBattery intentions desires iid = false
      → a = .sendMessage ∨ a = .respondToMessage
      → confirmBatteryEffect a (lookupBypassBattery intentions desires iid)
          battery e n
        = max 0 (battery - specDrainCost e n))
    ∧ (lookupBypassBattery intentions desires iid = true
      → confirmBatteryEffect a (lookupBypassBattery intentions desires iid)
          battery e n
        = battery)
    ∧ (0 ≤ battery → battery ≤ 1 → e ≤ 1
      → 0 ≤ drainSocialBattery battery e n ∧ drainSocialBattery battery e n ≤ 1) := by
  refine ⟨?_, ?_, ?_⟩
  · intro hb ha
    rw [hb]
    unfold confirmBatteryEffect
    rw [if_pos ⟨ha, rfl⟩]
    unfold drainSocialBattery
    rw [drainCost_eq_spec]
  · intro hb
    rw [hb]
    unfold confirmBatteryEffect
    simp
  · intro h0 h1 he
    constructor
    · exact le_max_left 0 _
    · refine max_le (by norm_num) ?_
      have := drainCost_nonneg e n he
      linarith

theorem c3_battery_drain_witness :
    confirmBatteryEffect ActionType.sendMessage
        (lookupBypassBattery [] [] 0) 1 (1/2) (1/2)
      = max 0 (1 - specDrainCost (1/2) (1/2))
    ∧ (0 ≤ drainSocialBattery 1 (1/2) (1/2)
       ∧ drainSocialBattery 1 (1/2) (1/2) ≤ 1) := by
  obtain ⟨h1, _, h3⟩ := c3_battery_drain (1/2) (1/2) 1 ActionType.sendMessage [] [] 0
  exact ⟨h1 rfl (Or.inl rfl), h3 (by norm_num) (by norm_num) (by norm_num)⟩

/-- WorldSimulator._update_relationship: add the delta to the stored
affinity (default 0.0) and clamp to the interval from -1 to 1. -/
def updateRelationship (old delta : ℚ) : ℚ := max (-1) (min 1 (old + delta))

/-- Battery values reachable from the initial 1.0 through drains (with
extraversion inside the data-model bounds) and restores; these are the
only two mutations of Agent.social_battery. -/
inductive ReachableBattery : ℚ → Prop where
  | init : ReachableBattery 1
  | drain {b e n : ℚ} : ReachableBattery b → 0 ≤ e → e ≤ 1 →
      ReachableBattery (drainSocialBattery b e n)
  | restore {b e : ℚ} : ReachableBattery b →
      ReachableBattery (restoreSocialBattery b e)

/-- C9: every reachable social battery value lies in the unit interval,
and every relationship affinity produced by _update_relationship lies
between -1 and 1. -/
theorem c9_bounds :
    (∀ b : ℚ, ReachableBattery b → 0 ≤ b ∧ b ≤ 1)
    ∧ (∀ old delta : ℚ,
        -1 ≤ updateRelationship old delta ∧ updateRelationship old delta ≤ 1) := by
  constructor
  · intro b hb
    induction hb with
    | init => norm_num
    | @drain b e n hb h0 h1 ih =>
      constructor
      · exact le_max_left 0 _
      · refine max_le (by norm_num) ?_
        have hc := drainCost_nonneg e n h1
        linarith [ih.2]
    | restore hb ih =>
      unfold restoreSocialBattery
      constructor
      · refine le_min (by norm_num) ?_
        split_ifs <;> linarith [ih.1]
      · exact min_le_left 1 _
  · intro old delta
    unfold updateRelationship
    exact ⟨le_max_left _ _, max_le (by norm_num) (min_le_left _ _)⟩

theorem c9_bounds_witness :
    ((0:ℚ) ≤ 1 ∧ (1:ℚ) ≤ 1)
    ∧ (-1 ≤ updateRelationship 0 (4/100)
       ∧ updateRelationship 0 (4/100) ≤ 1) := by
  obtain ⟨h1, h2⟩ := c9_bounds
  exact ⟨h1 1 ReachableBattery.init, h2 0 (4/100)⟩

/-- BeliefType enum from beliefs.py. -/
inductive BeliefType where
  | selfType
  | agent
  | world
  | event
  | social
deriving DecidableEq, Repr

/-- Belief dataclass from beliefs.py; values are kept abstract (the code
stores arbitrary values and only compares them for equality). -/
structure Belief (V : Type) where
  btype : BeliefType
  subject : String
  key : String
  value : V
  confidence : ℚ
  source : String
  timestamp : ℚ
deriving DecidableEq, Repr

/-- Composite key used by BeliefBase._generate_key; the string
f-type:subject:key is modelled as the triple. -/
def beliefKey {V : Type} (b : Belief V) : BeliefType × String × String :=
  (b.btype, b.subject, b.key)

/-- Merge branch of BeliefBase.add_belief for an existing composite key:
a different value with confidence at least the stored one replaces the
stored value, confidence, timestamp and source; a different value with
strictly smaller confidence keeps the stored value and averages the two
confidences; the same value bumps the stored confidence by 0.1 capped at
1.0 and refreshes the timestamp. -/
def mergeBelief {V : Type} [DecidableEq V] (old new : Belief V) : Belief V :=
  if old.value ≠ new.value then
    if old.confidence ≤ new.confidence then
      { old with
          value := new.value
          confidence := new.confidence
          timestamp := new.timestamp
          source := new.source }
    else
      { old with confidence := (old.confidence + new.confidence) / 2 }
  else
    { old with
        confidence := min 1 (old.confidence + 1/10)
        timestamp := new.timestamp }

/-- BeliefBase.add_belief on the stored belief list: merge into the entry
with the same composite key when present, otherwise append. -/
def addBelief {V : Type} [DecidableEq V] (store : List (Belief V))
    (b : Belief V) : List (Belief V) :=
  if store.any (fun x => beliefKey x == beliefKey b) then
    store.map (fun x => if beliefKey x == beliefKey b then mergeBelief x b else x)
  else
    store ++ [b]

theorem mergeBelief_key {V : Type} [DecidableEq V] (old new : Belief V) :
    beliefKey (mergeBelief old new) = beliefKey old := by
  unfold mergeBelief beliefKey
  split_ifs <;> rfl

theorem addBelief_nodupKeys {V : Type} [DecidableEq V]
    (store : List (Belief V)) (b : Belief V)
    (h : (store.map beliefKey).Nodup) :
    ((addBelief store b).map beliefKey).Nodup := by
  unfold addBelief
  split_ifs with hmem
  · have : (store.map (fun x =>
        if beliefKey x == beliefKey b then mergeBelief x b else x)).map beliefKey
        = store.map beliefKey := by
      rw [List.map_map]
      refine List.map_congr_left ?_
      intro x _
      simp only [Function.comp_apply]
      split_ifs with hx
      · rw [mergeBelief_key]
      · rfl
    rw [this]
    exact h
  · rw [List.map_append]
    refine List.Nodup.append h (by simp) ?_
    intro k hk1 hk2
    simp only [List.map_cons, List.map_nil, List.mem_cons,
      List.not_mem_nil, or_false] at hk2
    subst hk2
    obtain ⟨x, hx, hxk⟩ := List.mem_map.mp hk1
    have hfalse : ∀ x ∈ store, ¬ (beliefKey x == beliefKey b) = true := by
      intro y hy
      exact fun hyk => hmem (List.any_eq_true.mpr ⟨y, hy, hyk⟩)
    exact hfalse x hx (beq_iff_eq.mpr hxk)

/-- Stored belief with high confidence, used for the C5 counterexample. -/
def wOldBelief : Belief Nat :=
  { btype := .world, subject := "w", key := "k", value := 0,
    confidence := 9/10, source := "observation", timestamp := 0 }

/-- Conflicting re-assert with lower confidence, same composite key. -/
def wNewBelief : Belief Nat :=
  { btype := .world, subject := "w", key := "k", value := 1,
    confidence := 1/2, source := "observation", timestamp := 5 }

/-- C5 counterexample: on a value conflict where the stored belief has
strictly greater confidence, the code keeps the stored value but replaces
the stored confidence 0.9 by the average 0.7 instead of keeping it, so
the winning belief does not keep its confidence as claimed. -/
theorem c5_counterexample :
    wOldBelief.value ≠ wNewBelief.value
    ∧ wNewBelief.confidence < wOldBelief.confidence
    ∧ (mergeBelief wOldBelief wNewBelief).value = wOldBelief.value
    ∧ (mergeBelief wOldBelief wNewBelief).confidence = 7/10
    ∧ (mergeBelief wOldBelief wNewBelief).confidence ≠ wOldBelief.confidence := by
  have h1 : wOldBelief.value ≠ wNewBelief.value := by decide
  have h2 : ¬ wOldBelief.confidence ≤ wNewBelief.confidence := by
    norm_num [wOldBelief, wNewBelief]
  have hmerge : mergeBelief wOldBelief wNewBelief
      = { wOldBelief with
          confidence := (wOldBelief.confidence + wNewBelief.confidence) / 2 } := by
    unfold mergeBelief
    rw [if_pos h1, if_neg h2]
  refine ⟨h1, by norm_num [wOldBelief, wNewBelief], ?_, ?_, ?_⟩ <;>
    rw [hmerge] <;> norm_num [wOldBelief, wNewBelief]

/-- C5 amended: re-assert with the identical value bumps confidence by
0.1 capped at 1.0 and refreshes the timestamp; on a value conflict the
new belief wins (value and confidence) when its confidence is greater or
equal, while a new belief with strictly smaller confidence leaves the
stored value and timestamp and averages the two confidences; and
add_belief keeps at most one stored belief per composite key. -/
theorem c5_amended {V : Type} [DecidableEq V] (old new b : Belief V)
    (store : List (Belief V)) :
    (old.value = new.value
      → (mergeBelief old new).value = old.value
        ∧ (mergeBelief old new).confidence = min 1 (old.confidence + 1/10)
        ∧ (mergeBelief old new).timestamp = new.timestamp)
    ∧ (old.value ≠ new.value → old.confidence ≤ new.confidence
      → (mergeBelief old new).value = new.value
        ∧ (mergeBelief old new).confidence = new.confidence
        ∧ (mergeBelief old new).timestamp = new.timestamp)
    ∧ (old.value ≠ new.value → new.confidence < old.confidence
      → (mergeBelief old new).value = old.value
        ∧ (mergeBelief old new).confidence
            = (old.confidence + new.confidence) / 2
        ∧ (mergeBelief old new).timestamp = old.timestamp)
    ∧ ((store.map beliefKey).Nodup
      → ((addBelief store b).map beliefKey).Nodup) := by
  refine ⟨?_, ?_, ?_, addBelief_nodupKeys store b⟩
  · intro hv
    unfold mergeBelief
    rw [if_neg (by simpa using hv)]
    exact ⟨rfl, rfl, rfl⟩
  · intro hv hc
    unfold mergeBelief
    rw [if_pos hv, if_pos hc]
    exact ⟨rfl, rfl, rfl⟩
  · intro hv hc
    unfold mergeBelief
    rw [if_pos hv, if_neg (not_le.mpr hc)]
    exact ⟨rfl, rfl, rfl⟩

theorem c5_amended_witness :
    (mergeBelief wOldBelief wNewBelief).value = wOldBelief.value
    ∧ (mergeBelief wOldBelief wNewBelief).confidence
        = (wOldBelief.confidence + wNewBelief.confidence) / 2
    ∧ ((addBelief [] wNewBelief).map beliefKey).Nodup := by
  obtain ⟨_, _, h3, h4⟩ := c5_amended wOldBelief wNewBelief wNewBelief []
  obtain ⟨v, c, _⟩ := h3 (by decide) (by norm_num [wOldBelief, wNewBelief])
  exact ⟨v, c, h4 (by simp)⟩

/-- Message as seen by the wait handler in simulator.py: its sender and
its type. -/
structure Msg where
  senderId : String
  msgType : MessageType
deriving DecidableEq, Repr

/-- MAX_WAIT_TICKS default of WorldSimulator. -/
def maxWaitTicksDefault : Nat := 4

/-- Possible resolutions of one _do_wait dispatch. -/
inductive WaitOutcome where
  | gotFarewell
  | gotReply
  | lateReplyCaught
  | timedOutEnd
  | timedOutContinue
  | stillWaiting
deriving DecidableEq, Repr

/-- State after one _do_wait dispatch: the outcome, the wait-counter
entry for the intention (none when cleared or untouched after a
resolution), and the plan with its current step index. -/
structure WaitResult where
  outcome : WaitOutcome
  counter : Option Nat
  plan : Plan
  currentStep : Nat
deriving DecidableEq, Repr

/-- WorldSimulator._do_wait for one intention: counter is the current
wait_tick_counters entry (0 when absent).  The last-moment recheck before
the timeout reads the same tick cache as the first lookup, exactly as the
code does. -/
def doWait (cache : List Msg) (expectedFrom : String) (onTimeout : OnTimeout)
    (maxTicks : Nat) (counter : Nat) (plan : Plan) (currentStep : Nat) :
    WaitResult :=
  match cache.find? (fun m => m.senderId == expectedFrom) with
  | some response =>
    if response.msgType = .farewell ∨ response.msgType = .ack then
      { outcome := .gotFarewell, counter := none
        plan := (skipToEndConversation plan currentStep).1
        currentStep := (skipToEndConversation plan currentStep).2 }
    else
      { outcome := .gotReply, counter := none
        plan := plan, currentStep := currentStep }
  | none =>
    if maxTicks ≤ counter + 1 then
      match cache.find? (fun m => m.senderId == expectedFrom) with
      | some lateMsg =>
        if ¬(lateMsg.msgType = .farewell ∨ lateMsg.msgType = .ack) then
          { outcome := .lateReplyCaught, counter := none
            plan := plan, currentStep := currentStep }
        else if onTimeout = .toEnd then
          { outcome := .timedOutEnd, counter := none
            plan := (skipToEndConversation plan currentStep).1
            currentStep := (skipToEndConversation plan currentStep).2 }
        else
          { outcome := .timedOutContinue, counter := none
            plan := plan, currentStep := currentStep }
      | none =>
        if onTimeout = .toEnd then
          { outcome := .timedOutEnd, counter := none
            plan := (skipToEndConversation plan currentStep).1
            currentStep := (skipToEndConversation plan currentStep).2 }
        else
          { outcome := .timedOutContinue, counter := none
            plan := plan, currentStep := currentStep }
    else
      { outcome := .stillWaiting, counter := some (counter + 1)
        plan := plan, currentStep := currentStep }

/-- WAIT_FOR_RESPONSE step built by the dialogue planners in plans.py:
expected_from is the partner, max_ticks is 6 and on_timeout is end. -/
def plannerWaitStep (target : String) : PlanStep :=
  { actionType := .waitForResponse, target := none, requiresResponse := false
    expectedFrom := some target, onTimeout := .toEnd, maxTicks := some 6
    executed := false, success := false, timedOut := false }

theorem doWait_eq_some (cache : List Msg) (expectedFrom : String)
    (onTimeout : OnTimeout) (maxTicks counter : Nat) (plan : Plan)
    (currentStep : Nat) (response : Msg)
    (hfind : cache.find? (fun m => m.senderId == expectedFrom) = some response) :
    doWait cache expectedFrom onTimeout maxTicks counter plan currentStep
      = if response.msgType = .farewell ∨ response.msgType = .ack then
          { outcome := .gotFarewell, counter := none
            plan := (skipToEndConversation plan currentStep).1
            currentStep := (skipToEndConversation plan currentStep).2 }
        else
          { outcome := .gotReply, counter := none
            plan := plan, currentStep := currentStep } := by
  unfold doWait
  rw [hfind]

theorem doWait_eq_none (cache : List Msg) (expectedFrom : String)
    (onTimeout : OnTimeout) (maxTicks counter : Nat) (plan : Plan)
    (currentStep : Nat)
    (hfind : cache.find? (fun m => m.senderId == expectedFrom) = none) :
    doWait cache expectedFrom onTimeout maxTicks counter plan currentStep
      = if maxTicks ≤ counter + 1 then
          (if onTimeout = .toEnd then
            { outcome := .timedOutEnd, counter := none
              plan := (skipToEndConversation plan currentStep).1
              currentStep := (skipToEndConversation plan currentStep).2 }
          else
            { outcome := .timedOutContinue, counter := none
              plan := plan, currentStep := currentStep })
        else
          { outcome := .stillWaiting, counter := some (counter + 1)
            plan := plan, currentStep := currentStep } := by
  unfold doWait
  rw [hfind]

/-- C6: when no message from the expected sender is in the tick cache and
the incremented counter is below max_ticks, the counter entry is exactly
incremented by one; on reaching max_ticks with the cache still empty the
step resolves, the counter entry is cleared, and the plan is rewound to
END_CONVERSATION for on_timeout=end or left to advance for
on_timeout=continue; a message from the expected sender in the cache is
always accepted (farewell or reply) instead of timing out; every
resolution clears the counter entry; max_ticks defaults to 4 and the
planner wait steps request 6. -/
theorem c6_wait_timeout (cache : List Msg) (expectedFrom : String)
    (onTimeout : OnTimeout) (maxTicks counter : Nat) (plan : Plan)
    (currentStep : Nat) :
    ((∀ m ∈ cache, m.senderId ≠ expectedFrom) → counter + 1 < maxTicks
      → doWait cache expectedFrom onTimeout maxTicks counter plan currentStep
        = { outcome := .stillWaiting, counter := some (counter + 1)
            plan := plan, currentStep := currentStep })
    ∧ ((∀ m ∈ cache, m.senderId ≠ expectedFrom) → maxTicks ≤ counter + 1
      → (onTimeout = .toEnd
          → doWait cache expectedFrom onTimeout maxTicks counter plan currentStep
            = { outcome := .timedOutEnd, counter := none
                plan := (skipToEndConversation plan currentStep).1
                currentStep := (skipToEndConversation plan currentStep).2 })
        ∧ (onTimeout = .toContinue
          → doWait cache expectedFrom onTimeout maxTicks counter plan currentStep
            = { outcome := .timedOutContinue, counter := none
                plan := plan, currentStep := currentStep }))
    ∧ ((∃ m ∈ cache, m.senderId = expectedFrom)
      → ((doWait cache expectedFrom onTimeout maxTicks counter plan
            currentStep).outcome = .gotFarewell
        ∨ (doWait cache expectedFrom onTimeout maxTicks counter plan
            currentStep).outcome = .gotReply))
    ∧ ((doWait cache expectedFrom onTimeout maxTicks counter plan
          currentStep).outcome ≠ .stillWaiting
      → (doWait cache expectedFrom onTimeout maxTicks counter plan
          currentStep).counter = none)
    ∧ maxWaitTicksDefault = 4 ∧ (plannerWaitStep expectedFrom).maxTicks = some 6 := by
  have hnone : (∀ m ∈ cache, m.senderId ≠ expectedFrom)
      → cache.find? (fun m => m.senderId == expectedFrom) = none := by
    intro h
    rw [List.find?_eq_none]
    intro m hm
    simpa using h m hm
  refine ⟨?_, ?_, ?_, ?_, rfl, rfl⟩
  · intro h hlt
    rw [doWait_eq_none _ _ _ _ _ _ _ (hnone h), if_neg (not_le.mpr hlt)]
  · intro h hge
    rw [doWait_eq_none _ _ _ _ _ _ _ (hnone h), if_pos hge]
    constructor
    · intro he
      rw [if_pos he]
    · intro he
      rw [he]
      rfl
  · intro ⟨m, hm, hsender⟩
    cases hfind : cache.find? (fun m => m.senderId == expectedFrom) with
    | none =>
      rw [List.find?_eq_none] at hfind
      exact absurd (by simpa using hsender) (hfind m hm)
    | some response =>
      rw [doWait_eq_some _ _ _ _ _ _ _ _ hfind]
      split_ifs with hty
      · exact Or.inl rfl
      · exact Or.inr rfl
  · cases hfind : cache.find? (fun m => m.senderId == expectedFrom) with
    | none =>
      rw [doWait_eq_none _ _ _ _ _ _ _ hfind]
      split_ifs <;> intro h <;> first | rfl | exact absurd rfl h
    | some response =>
      rw [doWait_eq_some _ _ _ _ _ _ _ _ hfind]
      split_ifs <;> intro _ <;> rfl

theorem c6_wait_timeout_witness :
    (doWait [] "b" OnTimeout.toEnd 4 0 oneThinkPlan 0
      = { outcome := .stillWaiting, counter := some 1
          plan := oneThinkPlan, currentStep := 0 })
    ∧ (doWait [] "b" OnTimeout.toEnd 4 3 oneThinkPlan 0
      = { outcome := .timedOutEnd, counter := none
          plan := (skipToEndConversation oneThinkPlan 0).1
          currentStep := (skipToEndConversation oneThinkPlan 0).2 })
    ∧ ((doWait [Msg.mk "b" MessageType.answer] "b" OnTimeout.toEnd 4 3
          oneThinkPlan 0).outcome = .gotFarewell
      ∨ (doWait [Msg.mk "b" MessageType.answer] "b" OnTimeout.toEnd 4 3
          oneThinkPlan 0).outcome = .gotReply) := by
  obtain ⟨h1, _, _, _, _⟩ :=
    c6_wait_timeout [] "b" OnTimeout.toEnd 4 0 oneThinkPlan 0
  obtain ⟨_, h2b, _, _, _⟩ :=
    c6_wait_timeout [] "b" OnTimeout.toEnd 4 3 oneThinkPlan 0
  obtain ⟨_, _, h3, _, _⟩ :=
    c6_wait_timeout [Msg.mk "b" MessageType.answer] "b" OnTimeout.toEnd 4 3
      oneThinkPlan 0
  exact ⟨h1 (by simp) (by norm_num), (h2b (by simp) (by norm_num)).1 rfl,
    h3 ⟨Msg.mk "b" MessageType.answer, by simp, rfl⟩⟩

/-- One advisor-proposed desire item after the motivation-string mapping
(_MOTIVATION_MAP with default CURIOSITY) has been applied. -/
structure LLMDesireItem where
  description : String
  motivationType : MotivationType
  urgency : ℚ
  contextTargetAgent : Option String
deriving DecidableEq, Repr

/-- Result of a Python call that either returns a value or raises. -/
inductive LLMCall (α : Type) where
  | ok (val : α)
  | failed
deriving DecidableEq, Repr

/-- llm_cooldown_seconds of DesireGenerator. -/
def llmCooldownSeconds : ℚ := 60

/-- should_call_llm condition of generate_desires: advisor configured, no
ACTIVE or PURSUED non-social non-world-event desire, not blocked by a
user conversation or deep work, and the advisor cooldown elapsed. -/
def shouldCallLLM (llmPresent hasActiveNonsocial llmBlocked : Bool)
    (lastCalled currentTime cooldownSeconds : ℚ) : Bool :=
  llmPresent && !hasActiveNonsocial && !llmBlocked
    && decide (cooldownSeconds ≤ currentTime - lastCalled)

/-- Fallback desire appended inside the except branch of
generate_desires. -/
def fallbackThinkDesire : Desire :=
  { id := 0
    description := "Задуматься о происходящем"
    priority := 2/5
    urgency := 1/5
    personalityAlignment := 1/2
    status := .active
    motivationType := .curiosity
    source := .llmFallback
    preconditions := []
    deadline := none
    contextTargetAgent := none
    contextBypassBattery := false }

/-- One iteration of the advisor-item loop in generate_desires: empty
descriptions and duplicates are dropped, SOCIAL items are dropped under
the global block, coerced to SAFETY on a low battery, dropped while
talking to the user, and need an available partner not on cooldown;
accepted SOCIAL items get priority 0.65 and urgency 0.7, the rest
priority 0.40 with the proposed urgency; all get source llm_dynamic and
alignment 0.9. -/
def llmItemToDesire (currentDesires accNew : List Desire)
    (globallyBlocked talkingToUser : Bool) (battery : ℚ)
    (availableTarget : Option String) (onCooldown : String → Bool)
    (item : LLMDesireItem) : Option Desire :=
  if item.description = "" then none
  else if (currentDesires ++ accNew).any (fun d =>
      d.description.toLower == item.description.toLower
      && (d.status == DesireStatus.active || d.status == DesireStatus.pursued))
    then none
  else if item.motivationType = .social ∧ globallyBlocked then none
  else
    let mtype := if item.motivationType = .social ∧ battery < 1/5
      then MotivationType.safety else item.motivationType
    if mtype = .social ∧ talkingToUser then none
    else if mtype = .social then
      match (match availableTarget with
             | some t => some t
             | none => item.contextTargetAgent) with
      | none => none
      | some tgt =>
        if onCooldown tgt then none
        else some
          { id := 0
            description := item.description
            priority := 13/20
            urgency := 7/10
            personalityAlignment := 9/10
            status := .active
            motivationType := mtype
            source := .llmDynamic
            preconditions := []
            deadline := none
            contextTargetAgent := some tgt
            contextBypassBattery := false }
    else some
      { id := 0
        description := item.description
        priority := 2/5
        urgency := item.urgency
        personalityAlignment := 9/10
        status := .active
        motivationType := mtype
        source := .llmDynamic
        preconditions := []
        deadline := none
        contextTargetAgent := item.contextTargetAgent
        contextBypassBattery := false }

/-- Result of the LLM phase of generate_desires: the desires the phase
appends, the advisor timestamp after the phase, and whether the advisor
was invoked. -/
structure LLMPhaseResult where
  newDesires : List Desire
  llmLastCalled : ℚ
  llmInvoked : Bool
deriving DecidableEq, Repr

/-- The rate-limited LLM phase of DesireGenerator.generate_desires: when
the gate passes, the advisor is invoked; on success the timestamp
advances to the current time and the items are filtered into desires; on
an exception the fallback THINK desire is appended and, because the
timestamp assignment sits after the advisor call inside the try block,
the timestamp keeps its previous value. -/
def generateDesiresLLMPhase (llmPresent hasActiveNonsocial llmBlocked : Bool)
    (lastCalled currentTime : ℚ)
    (llmResult : LLMCall (List LLMDesireItem))
    (currentDesires : List Desire) (globallyBlocked talkingToUser : Bool)
    (battery : ℚ) (availableTarget : Option String)
    (onCooldown : String → Bool) : LLMPhaseResult :=
  if shouldCallLLM llmPresent hasActiveNonsocial llmBlocked lastCalled
      currentTime llmCooldownSeconds then
    match llmResult with
    | .failed =>
      { newDesires := [fallbackThinkDesire]
        llmLastCalled := lastCalled
        llmInvoked := true }
    | .ok items =>
      { newDesires := items.foldl (fun acc item =>
          match llmItemToDesire currentDesires acc globallyBlocked
              talkingToUser battery availableTarget onCooldown item with
          | some d => acc ++ [d]
          | none => acc) []
        llmLastCalled := currentTime
        llmInvoked := true }
  else
    { newDesires := [], llmLastCalled := lastCalled, llmInvoked := false }

/-- C7 counterexample: an advisor failure at time 100 leaves the cooldown
timestamp at its old value 0, so a second generation call one second
later, well inside the 60-second cooldown window, passes the gate and
invokes the advisor again. -/
theorem c7_counterexample :
    (generateDesiresLLMPhase true false false 0 100 .failed [] false false 1
        none (fun _ => false)).newDesires = [fallbackThinkDesire]
    ∧ (generateDesiresLLMPhase true false false 0 100 .failed [] false false 1
        none (fun _ => false)).llmLastCalled = 0
    ∧ shouldCallLLM true false false
        (generateDesiresLLMPhase true false false 0 100 .failed [] false false
          1 none (fun _ => false)).llmLastCalled 101 llmCooldownSeconds = true
    ∧ (101 - 100 : ℚ) < llmCooldownSeconds := by
  have hgate : shouldCallLLM true false false 0 100 llmCooldownSeconds = true := by
    unfold shouldCallLLM llmCooldownSeconds
    norm_num
  have hr : generateDesiresLLMPhase true false false 0 100 .failed [] false
      false 1 none (fun _ => false)
      = { newDesires := [fallbackThinkDesire], llmLastCalled := 0
          llmInvoked := true } := by
    unfold generateDesiresLLMPhase
    rw [hgate]
    rfl
  have hgate2 : shouldCallLLM true false false 0 101 llmCooldownSeconds = true := by
    unfold shouldCallLLM llmCooldownSeconds
    norm_num
  refine ⟨by rw [hr], by rw [hr], ?_, by unfold llmCooldownSeconds; norm_num⟩
  rw [hr]
  exact hgate2

/-- C7 amended: when the gate passes and the advisor call raises, the
exception is caught and exactly one fallback THINK desire (source
llm_fallback, priority 0.40, motivation CURIOSITY) is appended, but the
advisor cooldown timestamp is not advanced: it is assigned only after a
successful advisor return, so a failure leaves the previous value and
does not prevent an immediate retry. -/
theorem c7_amended (llmPresent hasActiveNonsocial llmBlocked : Bool)
    (lastCalled currentTime : ℚ) (currentDesires : List Desire)
    (globallyBlocked talkingToUser : Bool) (battery : ℚ)
    (availableTarget : Option String) (onCooldown : String → Bool)
    (hcall : shouldCallLLM llmPresent hasActiveNonsocial llmBlocked lastCalled
      currentTime llmCooldownSeconds = true) :
    (generateDesiresLLMPhase llmPresent hasActiveNonsocial llmBlocked
        lastCalled currentTime .failed currentDesires globallyBlocked
        talkingToUser battery availableTarget onCooldown).newDesires
      = [fallbackThinkDesire]
    ∧ (generateDesiresLLMPhase llmPresent hasActiveNonsocial llmBlocked
        lastCalled currentTime .failed currentDesires globallyBlocked
        talkingToUser battery availableTarget onCooldown).llmLastCalled
      = lastCalled
    ∧ fallbackThinkDesire.source = .llmFallback
    ∧ fallbackThinkDesire.priority = 2/5
    ∧ fallbackThinkDesire.motivationType = .curiosity := by
  have hr : generateDesiresLLMPhase llmPresent hasActiveNonsocial llmBlocked
      lastCalled currentTime .failed currentDesires globallyBlocked
      talkingToUser battery availableTarget onCooldown
      = { newDesires := [fallbackThinkDesire], llmLastCalled := lastCalled
          llmInvoked := true } := by
    unfold generateDesiresLLMPhase
    rw [hcall]
    rfl
  exact ⟨by rw [hr], by rw [hr], rfl, rfl, rfl⟩

theorem c7_amended_witness :
    (generateDesiresLLMPhase true false false 0 100 .failed [] false false 1
        none (fun _ => false)).newDesires = [fallbackThinkDesire]
    ∧ (generateDesiresLLMPhase true false false 0 100 .failed [] false false 1
        none (fun _ => false)).llmLastCalled = 0 := by
  obtain ⟨h1, h2, _⟩ := c7_amended true false false 0 100 [] false false 1
    none (fun _ => false)
    (by unfold shouldCallLLM llmCooldownSeconds; norm_num)
  exact ⟨h1, h2⟩

/-- Cooldown and satiety fields of DesireGenerator that
mark_conversation_ended touches. -/
structure DGState where
  conversationEndedAt : String → Option ℚ
  lastConversationEndedAt : ℚ
  ticksSinceConversationEnded : Nat
  soloActionsAfterConversation : Nat
  recentConvTimestamps : List ℚ
  recentConversationsCount : Nat

/-- recent_conv_window_seconds of DesireGenerator. -/
def recentConvWindowSeconds : ℚ := 300

/-- DesireGenerator._update_recent_conv_window at instant now. -/
def updateRecentConvWindow (st : DGState) (now : ℚ) : DGState :=
  { st with
      recentConvTimestamps := st.recentConvTimestamps.filter
        (fun t => decide (now - recentConvWindowSeconds < t))
      recentConversationsCount := (st.recentConvTimestamps.filter
        (fun t => decide (now - recentConvWindowSeconds < t))).length }

/-- DesireGenerator.mark_conversation_ended: stamp the per-partner and
global timestamps, reset the tick and solo counters, append to the
sliding window and refresh it. -/
def markConversationEnded (st : DGState) (partner : String) (now : ℚ) :
    DGState :=
  updateRecentConvWindow
    { st with
        conversationEndedAt := fun s =>
          if s = partner then some now else st.conversationEndedAt s
        lastConversationEndedAt := now
        ticksSinceConversationEnded := 0
        soloActionsAfterConversation := 0
        recentConvTimestamps := st.recentConvTimestamps ++ [now] }
    now

/-- BDI state of one agent touched by conversation teardown: id, the
desire-generator cooldowns, the turn counters with force-quit flags, and
the belief store (values are strings here: conversation ids). -/
structure AgentBDI where
  aid : String
  dg : DGState
  turn : TurnState
  beliefs : List (Belief String)

/-- DeliberationCycle.notify_conversation_ended as called through
Agent.notify_conversation_ended: start the cooldowns, pop the partner
turn counter and discard the partner force-quit flag. -/
def notifyConversationEnded (a : AgentBDI) (partner : String) (now : ℚ) :
    AgentBDI :=
  { a with
      dg := markConversationEnded a.dg partner now
      turn :=
        { counts := fun s => if s = partner then 0 else a.turn.counts s
          forceQuit := fun s => if s = partner then false else a.turn.forceQuit s } }

/-- ConversationStatus enum from communication.py. -/
inductive ConversationStatus where
  | activeConv
  | waiting
  | ended
  | timedOutConv
deriving DecidableEq, Repr

/-- Conversation metadata from communication.py (fields the teardown
claims read). -/
structure Conversation where
  cid : Nat
  participants : List String
  status : ConversationStatus
  endedAt : Option ℚ
deriving DecidableEq, Repr

/-- CommunicationHub.get_active_conversation: first conversation holding
both agents whose status is ACTIVE or WAITING. -/
def getActiveConversation (hub : List Conversation) (a b : String) :
    Option Conversation :=
  hub.find? (fun c => decide (a ∈ c.participants ∧ b ∈ c.participants
    ∧ (c.status = .activeConv ∨ c.status = .waiting)))

/-- CommunicationHub.end_conversation: set the status to ENDED and stamp
ended_at. -/
def endConversation (hub : List Conversation) (cid : Nat) (now : ℚ) :
    List Conversation :=
  hub.map (fun c => if c.cid = cid
    then { c with status := .ended, endedAt := some now } else c)

/-- BeliefBase.remove_belief by composite key. -/
def removeBelief (store : List (Belief String)) (t : BeliefType)
    (subj key : String) : List (Belief String) :=
  store.filter (fun b => decide (beliefKey b ≠ (t, subj, key)))

/-- WorldSimulator._do_end: when an active conversation with the target
exists, end it in the hub, remove the SELF current_conversation belief of
the acting agent, and notify both the acting agent and (when registered)
the partner in the same dispatch. -/
def doEnd (hub : List Conversation) (agent : AgentBDI)
    (registeredPartner : Option AgentBDI) (target : String) (now : ℚ) :
    List Conversation × AgentBDI × Option AgentBDI :=
  match getActiveConversation hub agent.aid target with
  | some conv =>
    let cleaned : AgentBDI := { agent with
      beliefs := removeBelief agent.beliefs .selfType agent.aid "current_conversation" }
    (endConversation hub conv.cid now,
     notifyConversationEnded cleaned target now,
     registeredPartner.map (fun p => notifyConversationEnded p agent.aid now))
  | none => (hub, agent, registeredPartner)

theorem markConversationEnded_fields (st : DGState) (partner : String)
    (now : ℚ) :
    (markConversationEnded st partner now).conversationEndedAt partner = some now
    ∧ (markConversationEnded st partner now).lastConversationEndedAt = now
    ∧ (markConversationEnded st partner now).ticksSinceConversationEnded = 0
    ∧ (markConversationEnded st partner now).soloActionsAfterConversation = 0 := by
  unfold markConversationEnded updateRecentConvWindow
  refine ⟨?_, rfl, rfl, rfl⟩
  simp

/-- Acting agent after the SELF current_conversation belief removal in
_do_end. -/
def cleanedAgent (agent : AgentBDI) : AgentBDI :=
  { agent with
      beliefs := removeBelief agent.beliefs .selfType agent.aid "current_conversation" }

/-- C8: an END_CONVERSATION dispatch that finds an active conversation
with a registered partner ends that conversation in the hub, removes the
SELF current_conversation belief of the acting agent, and notifies both
participants within the same dispatch with the same instant, so both
per-partner and global cooldown timestamps are stamped with the same
time on both agents. -/
theorem c8_symmetric_cooldown (hub : List Conversation) (agent : AgentBDI)
    (partner : AgentBDI) (target : String) (now : ℚ) (conv : Conversation)
    (hfind : getActiveConversation hub agent.aid target = some conv) :
    ((doEnd hub agent (some partner) target now).1
      = endConversation hub conv.cid now)
    ∧ (∀ c ∈ (doEnd hub agent (some partner) target now).1,
        c.cid = conv.cid → c.status = .ended ∧ c.endedAt = some now)
    ∧ (∀ b ∈ ((doEnd hub agent (some partner) target now).2.1).beliefs,
        beliefKey b ≠ (BeliefType.selfType, agent.aid, "current_conversation"))
    ∧ ((doEnd hub agent (some partner) target now).2.1).dg.conversationEndedAt
        target = some now
    ∧ ((doEnd hub agent (some partner) target now).2.1).dg.lastConversationEndedAt
        = now
    ∧ ((doEnd hub agent (some partner) target now).2.1).dg.ticksSinceConversationEnded
        = 0
    ∧ ((doEnd hub agent (some partner) target now).2.1).dg.soloActionsAfterConversation
        = 0
    ∧ ((doEnd hub agent (some partner) target now).2.2
        = some (notifyConversationEnded partner agent.aid now))
    ∧ (notifyConversationEnded partner agent.aid now).dg.conversationEndedAt
        agent.aid = some now
    ∧ (notifyConversationEnded partner agent.aid now).dg.lastConversationEndedAt
        = now := by
  have hd : doEnd hub agent (some partner) target now
      = (endConversation hub conv.cid now,
         notifyConversationEnded (cleanedAgent agent) target now,
         some (notifyConversationEnded partner agent.aid now)) := by
    unfold doEnd cleanedAgent
    rw [hfind]
    rfl
  obtain ⟨m1, m2, m3, m4⟩ := markConversationEnded_fields
    (cleanedAgent agent).dg target now
  obtain ⟨p1, p2, _, _⟩ := markConversationEnded_fields partner.dg agent.aid now
  refine ⟨by rw [hd], ?_, ?_, ?_, ?_, ?_, ?_, by rw [hd], p1, p2⟩
  · intro c hc hcid
    rw [hd] at hc
    obtain ⟨orig, horig, hmap⟩ := List.mem_map.mp hc
    by_cases h : orig.cid = conv.cid
    · rw [if_pos h] at hmap
      rw [← hmap]
      exact ⟨rfl, rfl⟩
    · rw [if_neg h] at hmap
      rw [← hmap] at hcid
      exact absurd hcid h
  · intro b hb
    rw [hd] at hb
    have hb2 : b ∈ removeBelief agent.beliefs .selfType agent.aid
        "current_conversation" := hb
    have := List.of_mem_filter hb2
    simpa using this
  · rw [hd]
    exact m1
  · rw [hd]
    exact m2
  · rw [hd]
    exact m3
  · rw [hd]
    exact m4

/-- Active conversation between agents a and b for the C8 witness. -/
def wConversation : Conversation := ⟨1, ["a", "b"], .activeConv, none⟩

/-- Fresh desire-generator cooldown state. -/
def wDGState : DGState := ⟨fun _ => none, 0, 999, 999, [], 0⟩

/-- Agent a holding a current_conversation belief. -/
def wAgentA : AgentBDI := ⟨"a", wDGState, wTurnState,
  [⟨.selfType, "a", "current_conversation", "conv1", 1, "self_awareness", 0⟩]⟩

/-- Agent b, the registered partner. -/
def wAgentB : AgentBDI := ⟨"b", wDGState, wTurnState, []⟩

theorem c8_symmetric_cooldown_witness :
    ((doEnd [wConversation] wAgentA (some wAgentB) "b" 5).2.1).dg.conversationEndedAt
      "b" = some 5
    ∧ (notifyConversationEnded wAgentB wAgentA.aid 5).dg.conversationEndedAt
      "a" = some 5 := by
  have hfind : getActiveConversation [wConversation] wAgentA.aid "b"
      = some wConversation := rfl
  obtain ⟨_, _, _, h4, _, _, _, _, h9, _⟩ :=
    c8_symmetric_cooldown [wConversation] wAgentA wAgentB "b" 5 wConversation hfind
  exact ⟨h4, h9⟩

/-- Intention.update_progress: success advances current_step; failure
increments the failure counter and retries up to 3 times before marking
the intention FAILED.  A failure does not advance current_step. -/
def updateProgress (i : Intention) (success : Bool) : Intention :=
  if success then
    { i with currentStep := i.currentStep + 1
             stepsCompleted := i.stepsCompleted + 1 }
  else if i.retryCount < 3 then
    { i with stepsFailed := i.stepsFailed + 1, retryCount := i.retryCount + 1 }
  else
    { i with stepsFailed := i.stepsFailed + 1, status := .failed }

/-- Intention.is_completed: the plan is complete when current_step is
past the end of the step list. -/
def isCompletedIntention (i : Intention) : Bool :=
  match i.plan with
  | none => false
  | some p => decide (p.steps.length ≤ i.currentStep)

/-- The step_object.executed and step_object.success assignments at the
top of Agent.confirm_action_execution, for the dispatched step index. -/
def markStepExecuted (i : Intention) (stepIdx : Nat) (success : Bool) :
    Intention :=
  { i with plan := i.plan.map (fun p =>
      ⟨p.steps.mapIdx (fun j s => if j = stepIdx
        then { s with executed := true, success := success } else s)⟩) }

/-- Progress part of Agent.confirm_action_execution: mark the step, run
update_progress, and complete the intention when is_completed holds. -/
def confirmProgress (i : Intention) (stepIdx : Nat) (success : Bool) :
    Intention :=
  let i1 := updateProgress (markStepExecuted i stepIdx success) success
  if isCompletedIntention i1 then { i1 with status := .completed } else i1

/-- Zombie test of _kill_zombie_intentions: a non-empty plan with every
step executed. -/
def allStepsExecuted (i : Intention) : Bool :=
  match i.plan with
  | none => false
  | some p => decide (0 < p.steps.length) && p.steps.all (fun s => s.executed)

/-- DeliberationCycle._kill_zombie_intentions: abandon every ACTIVE or
SUSPENDED intention without a plan or with all steps executed; return the
new list and the kill count. -/
def killZombieIntentions (intentions : List Intention) :
    List Intention × Nat :=
  intentions.foldr (fun i acc =>
    if i.status = .active ∨ i.status = .suspended then
      if i.plan = none then ({ i with status := .abandoned } :: acc.1, acc.2 + 1)
      else if allStepsExecuted i then
        ({ i with status := .abandoned } :: acc.1, acc.2 + 1)
      else (i :: acc.1, acc.2)
    else (i :: acc.1, acc.2)) ([], 0)

/-- IDLE_GUARD_THRESHOLD of DeliberationCycle. -/
def idleGuardThreshold : Nat := 2

/-- Phase 1b of run_cycle: the idle counter resets whenever any intention
is ACTIVE; otherwise it increments and, at the threshold, the zombie
killer runs. -/
def idleGuardStep (intentions : List Intention) (idleTicks : Nat) :
    List Intention × Nat :=
  if intentions.any (fun i => i.status == IntentionStatus.active) then
    (intentions, 0)
  else if idleGuardThreshold ≤ idleTicks + 1 then
    ((killZombieIntentions intentions).1,
     if 0 < (killZombieIntentions intentions).2 then 0 else idleTicks + 1)
  else (intentions, idleTicks + 1)

/-- DeliberationCycle._cleanup_intentions: drop terminal intentions. -/
def cleanupIntentions (intentions : List Intention) : List Intention :=
  intentions.filter (fun i => decide (¬(i.status = .completed
    ∨ i.status = .failed ∨ i.status = .abandoned)))

/-- Intention.get_current_action: the plan step at current_step when it
exists. -/
def getCurrentAction (i : Intention) : Option PlanStep :=
  i.plan.bind (fun p => p.steps[i.currentStep]?)

/-- Phase 8 of run_cycle: emit the current step of every ACTIVE intention
unless that step is already executed. -/
def harvestActions (intentions : List Intention) : List (Nat × PlanStep) :=
  intentions.filterMap (fun i =>
    if i.status = .active then
      match getCurrentAction i with
      | some a => if a.executed then none else some (i.id, a)
      | none => none
    else none)

/-- The intention phases of one run_cycle for an agent with no urgent
desires: cleanup, idle guard and the execution harvest (the phases in
between only suspend interruptible intentions on urgent desires or
abandon non-interruptible ones on WRAP_UP, and none of them applies
here). -/
def runCycleIntentionSlice (intentions : List Intention) (idleTicks : Nat) :
    List Intention × Nat × List (Nat × PlanStep) :=
  ((idleGuardStep (cleanupIntentions intentions) idleTicks).1,
   (idleGuardStep (cleanupIntentions intentions) idleTicks).2,
   harvestActions (idleGuardStep (cleanupIntentions intentions) idleTicks).1)

/-- An ACTIVE intention over a one-step plan, as created for an idle
desire. -/
def zombieIntention : Intention :=
  { id := 7
    desireId := 3
    desireDescription := "idle think"
    status := .active
    priority := 1/10
    currentStep := 0
    stepsCompleted := 0
    stepsFailed := 0
    retryCount := 0
    interruptible := true
    plan := some oneThinkPlan }

/-- The same intention after its only step failed (the dispatcher caught
an exception and called confirm_action_execution with success False). -/
def zombieAfterConfirm : Intention := confirmProgress zombieIntention 0 false

/-- C10: the no-zombie invariant fails.  After a failed confirmation of
the only plan step, the intention has every step executed yet stays
ACTIVE (update_progress does not advance current_step on failure, so
is_completed is false), and a subsequent deliberation cycle, with any
accumulated idle tick count, keeps it ACTIVE: cleanup keeps non-terminal
intentions and the idle guard is gated on the absence of ACTIVE
intentions, so it can never abandon an ACTIVE zombie; no action is
emitted for it either, so the state repeats forever. -/
theorem c10_zombie_bug :
    zombieAfterConfirm.status = IntentionStatus.active
    ∧ allStepsExecuted zombieAfterConfirm = true
    ∧ runCycleIntentionSlice [zombieAfterConfirm] 5
      = ([zombieAfterConfirm], 0, [])
    ∧ runCycleIntentionSlice [zombieAfterConfirm] 0
      = ([zombieAfterConfirm], 0, []) := by
  refine ⟨rfl, rfl, ?_, ?_⟩ <;> rfl
